import Mathlib

/-!
Shallow embedding of the credential-batch orchestrator of nslogin-web
(src/ts/app.ts): the App class (start, cancel, pause, unpause), the
Login, Restore and Auto procedures, the toId name normalization and the
hidden-form submission promises (restoreRequest, and the legacy
loginRequest variant of the same file).

Remote calls (NsApi.nationRequest) and hidden-form submissions are
modelled by their observable results: Except values supplied by an
environment, one per credential.  Log lines and outcome classifications
are collected into an event list.  JavaScript semantics that matter here
are modelled explicitly: String.prototype.replace with a string pattern
replaces only the first occurrence, parseInt yields NaN (modelled as
none) on unparseable input, and every numeric comparison against NaN is
false.
-/

/-- A nation name and its password (interface Credential). -/
structure Credential where
  nation : String
  password : String
  deriving DecidableEq

/-- The level argument of Ui.log. -/
inductive LogLevel
  | info
  | error
  deriving DecidableEq

/-- Per-credential outcome classification, derived from which branch of a
procedure ran (the classification coincides with the choice of log line). -/
inductive Outcome
  | LoginSucceeded
  | LoginFailed
  | RestoreSucceeded
  | RestoreFailed
  deriving DecidableEq

/-- Observable events of a run: Ui.log lines, outcome classification
points, and NsApi.cleanup invocations. -/
inductive Event
  | log (level : LogLevel) (msg : String)
  | outcome (nation : String) (o : Outcome)
  | cleanup
  deriving DecidableEq

/-- util.inspect applied to a caught exception, modelled as returning the
carried detail string itself. -/
def utilInspect (errDetail : String) : String :=
  errDetail

/-- JavaScript parseInt(s, 10): skip leading whitespace, read an optional
sign, then the longest prefix of decimal digits; the result is NaN
(modelled as none) when there are no digits, otherwise the signed value,
ignoring trailing garbage. -/
def jsParseInt (s : String) : Option Int :=
  let cs := s.toList.dropWhile Char.isWhitespace
  let signed : Bool × List Char :=
    match cs with
    | '-' :: rest => (true, rest)
    | '+' :: rest => (false, rest)
    | _ => (false, cs)
  let digits := signed.2.takeWhile Char.isDigit
  if digits.isEmpty then none
  else
    let v : Nat := digits.foldl (fun a c => a * 10 + (c.toNat - 48)) 0
    some (if signed.1 then -(v : Int) else (v : Int))

/-- The freshness test of loginNations: now - parseInt(lastlogin) > 30.
When parseInt yields NaN, the JavaScript comparison NaN > 30 is false, so
the test does not fail and the success branch runs. -/
def loginFreshnessFails (now : ℚ) (lastloginValue : String) : Bool :=
  match jsParseInt lastloginValue with
  | some t => decide ((30 : ℚ) < now - (t : ℚ))
  | none => false

/-- Observable results of the remote calls made for one credential of the
Login procedure: the authenticated nextissuetime request (which performs
the API-side login), the lastlogin read, and Date.now() / 1000 sampled
after the lastlogin read. -/
structure LoginEnv where
  nextissuetimeRequest : Except String Unit
  lastloginRequest : Except String String
  now : ℚ

/-- The per-credential body of loginNations (the content of one loop
iteration after the cancellation check and the pause gate). -/
def loginBody (verbose : Bool) (c : Credential) (e : LoginEnv) : List Event :=
  Event.log LogLevel.info (c.nation ++ ": Logging in...") ::
    match e.nextissuetimeRequest with
    | Except.error err =>
        Event.log LogLevel.error (c.nation ++ ": Login failed") ::
        Event.outcome c.nation Outcome.LoginFailed ::
        (if verbose then [Event.log LogLevel.error (utilInspect err)] else [])
    | Except.ok _ =>
      match e.lastloginRequest with
      | Except.error err =>
          Event.log LogLevel.error (c.nation ++ ": Login failed") ::
          Event.outcome c.nation Outcome.LoginFailed ::
          (if verbose then [Event.log LogLevel.error (utilInspect err)] else [])
      | Except.ok lastloginValue =>
        if loginFreshnessFails e.now lastloginValue then
          Event.log LogLevel.error (c.nation ++ ": Login failed") ::
          Event.outcome c.nation Outcome.LoginFailed ::
          (if verbose then
            [Event.log LogLevel.error
              "More than 30 seconds between now and last login"]
          else [])
        else
          [Event.log LogLevel.info
            (c.nation ++
              ": Login successful (or nation was logged into in the last 30 seconds)"),
           Event.outcome c.nation Outcome.LoginSucceeded]

/-- Extracts the outcome classification stream from an event list. -/
def outcomesOf : List Event → List (String × Outcome)
  | [] => []
  | Event.outcome n o :: rest => (n, o) :: outcomesOf rest
  | Event.log _ _ :: rest => outcomesOf rest
  | Event.cleanup :: rest => outcomesOf rest

@[simp] theorem outcomesOf_nil : outcomesOf [] = [] := rfl

@[simp] theorem outcomesOf_cons_log (lv : LogLevel) (m : String)
    (rest : List Event) :
    outcomesOf (Event.log lv m :: rest) = outcomesOf rest := rfl

@[simp] theorem outcomesOf_cons_outcome (n : String) (o : Outcome)
    (rest : List Event) :
    outcomesOf (Event.outcome n o :: rest) = (n, o) :: outcomesOf rest := rfl

@[simp] theorem outcomesOf_cons_cleanup (rest : List Event) :
    outcomesOf (Event.cleanup :: rest) = outcomesOf rest := rfl

@[simp] theorem outcomesOf_append (a b : List Event) :
    outcomesOf (a ++ b) = outcomesOf a ++ outcomesOf b := by
  induction a with
  | nil => rfl
  | cons x rest ih => cases x <;> simp [outcomesOf, ih]

@[simp] theorem outcomesOf_ite_log (v : Bool) (lv : LogLevel) (m : String) :
    outcomesOf (if v then [Event.log lv m] else []) = [] := by
  cases v <;> rfl

/-- Claim C1: in the Login procedure, when both remote reads succeed and
the lastlogin field parses as an integer T, the credential is classified
LoginSucceeded iff now - T is at most 30 seconds; at a difference of
exactly 30 it is LoginSucceeded, and strictly above 30 it is
LoginFailed. -/
theorem c1_login_freshness (verbose : Bool) (c : Credential) (e : LoginEnv)
    (s : String) (T : ℤ)
    (hA : e.nextissuetimeRequest = Except.ok ())
    (hL : e.lastloginRequest = Except.ok s)
    (hP : jsParseInt s = some T) :
    (outcomesOf (loginBody verbose c e) = [(c.nation, Outcome.LoginSucceeded)]
      ↔ e.now - (T : ℚ) ≤ 30)
    ∧ (e.now - (T : ℚ) = 30 →
        outcomesOf (loginBody verbose c e) = [(c.nation, Outcome.LoginSucceeded)])
    ∧ ((30 : ℚ) < e.now - (T : ℚ) →
        outcomesOf (loginBody verbose c e) = [(c.nation, Outcome.LoginFailed)]) := by
  have hfresh : loginFreshnessFails e.now s = decide ((30 : ℚ) < e.now - (T : ℚ)) := by
    simp [loginFreshnessFails, hP]
  by_cases hgt : (30 : ℚ) < e.now - (T : ℚ)
  · refine ⟨?_, ?_, ?_⟩
    · simp [loginBody, hA, hL, hfresh, hgt, not_le.mpr hgt]
    · intro h30
      exact absurd (le_of_eq h30) (not_le.mpr hgt)
    · intro _
      simp [loginBody, hA, hL, hfresh, hgt]
  · refine ⟨?_, ?_, ?_⟩
    · simp [loginBody, hA, hL, hfresh, hgt, not_lt.mp hgt]
    · intro _
      simp [loginBody, hA, hL, hfresh, hgt]
    · intro h
      exact absurd h hgt

/-- Witness for C1 at a concrete boundary input: now = 100, lastlogin
parses to 70, a difference of exactly 30 seconds, classified
LoginSucceeded. -/
theorem c1_login_freshness_witness :
    outcomesOf (loginBody false ⟨"testnation", "pw1"⟩
        ⟨Except.ok (), Except.ok "70", (100 : ℚ)⟩)
      = [("testnation", Outcome.LoginSucceeded)] :=
  (c1_login_freshness false ⟨"testnation", "pw1"⟩
      ⟨Except.ok (), Except.ok "70", (100 : ℚ)⟩ "70" 70
      rfl rfl (by decide)).2.1 (by norm_num)

/-- The loginNations loop from index i: at the top of each iteration the
cancelled flag is checked and, when set, iteration stops with no further
events; otherwise the pause gate (which emits no events) is awaited and
the per-credential body runs.  cancelled j is the value of the _cancel
flag observed at the check of iteration j; env j gives the observable
results of the remote calls of iteration j. -/
def loginNationsFrom (verbose : Bool) (cancelled : Nat → Bool)
    (env : Nat → LoginEnv) : List Credential → Nat → List Event
  | [], _ => []
  | c :: cs, i =>
    if cancelled i then []
    else loginBody verbose c (env i) ++ loginNationsFrom verbose cancelled env cs (i + 1)

/-- The Login procedure (App.loginNations) on a credential list. -/
def loginNations (verbose : Bool) (cancelled : Nat → Bool)
    (env : Nat → LoginEnv) (credentials : List Credential) : List Event :=
  loginNationsFrom verbose cancelled env credentials 0

/-- Claim C3 counterexample: with both remote reads succeeding but a
lastlogin value that is not a valid integer, parseInt does not throw (it
yields NaN) and the credential is classified LoginSucceeded, not the
LoginFailed the claim requires for a parse failure. -/
theorem c3_counterexample_parse_failure :
    outcomesOf (loginBody false ⟨"testnation", "pw1"⟩
        ⟨Except.ok (), Except.ok "notanumber", (100 : ℚ)⟩)
      = [("testnation", Outcome.LoginSucceeded)]
    ∧ outcomesOf (loginBody false ⟨"testnation", "pw1"⟩
        ⟨Except.ok (), Except.ok "notanumber", (100 : ℚ)⟩)
      ≠ [("testnation", Outcome.LoginFailed)] := by
  constructor
  · rfl
  · decide

/-- Claim C3 (amended): every exception thrown by the two remote calls of
the Login procedure is caught at the per-credential boundary and
classified LoginFailed, and the loop proceeds to the next credential; a
lastlogin value that does not parse as an integer, however, does not
throw: parseInt yields NaN, the freshness comparison is false, and the
credential is classified LoginSucceeded. -/
theorem c3_exceptions_caught (verbose : Bool) (c : Credential) (e : LoginEnv) :
    (∀ err, e.nextissuetimeRequest = Except.error err →
      outcomesOf (loginBody verbose c e) = [(c.nation, Outcome.LoginFailed)])
    ∧ (∀ err, e.nextissuetimeRequest = Except.ok () →
        e.lastloginRequest = Except.error err →
        outcomesOf (loginBody verbose c e) = [(c.nation, Outcome.LoginFailed)])
    ∧ (∀ s, e.nextissuetimeRequest = Except.ok () →
        e.lastloginRequest = Except.ok s → jsParseInt s = none →
        outcomesOf (loginBody verbose c e) = [(c.nation, Outcome.LoginSucceeded)])
    ∧ (∀ (cancelled : Nat → Bool) (env : Nat → LoginEnv)
        (cs : List Credential) (i : Nat), cancelled i = false →
        loginNationsFrom verbose cancelled env (c :: cs) i
          = loginBody verbose c (env i)
            ++ loginNationsFrom verbose cancelled env cs (i + 1)) := by
  refine ⟨?_, ?_, ?_, ?_⟩
  · intro err hA
    simp [loginBody, hA]
  · intro err hA hL
    simp [loginBody, hA, hL]
  · intro s hA hL hP
    have hfresh : loginFreshnessFails e.now s = false := by
      simp [loginFreshnessFails, hP]
    simp [loginBody, hA, hL, hfresh]
  · intro cancelled env cs i hi
    simp [loginNationsFrom, hi]

/-- Witness for C3 at a concrete input: a failing lastlogin read is
classified LoginFailed and the loop continues past it. -/
theorem c3_exceptions_caught_witness :
    outcomesOf (loginBody true ⟨"testnation", "pw1"⟩
        ⟨Except.ok (), Except.error "network error", (100 : ℚ)⟩)
      = [("testnation", Outcome.LoginFailed)] :=
  (c3_exceptions_caught true ⟨"testnation", "pw1"⟩
      ⟨Except.ok (), Except.error "network error", (100 : ℚ)⟩).2.1
    "network error" rfl rfl

/-- Bool-valued list prefix test, used to locate the first occurrence of
a replace pattern. -/
def isPrefixOfCL : List Char → List Char → Bool
  | [], _ => true
  | _ :: _, [] => false
  | p :: ps, c :: cs => p == c && isPrefixOfCL ps cs

/-- JavaScript String.prototype.replace with a string (non-regex)
pattern: only the first occurrence of the pattern is replaced.  (The
empty-string corner of replace on an empty receiver is not exercised by
toId, whose patterns are a single underscore and a single space.) -/
def replaceFirstAux (pat rep : List Char) : List Char → List Char
  | [] => []
  | c :: cs =>
    if isPrefixOfCL pat (c :: cs) then rep ++ List.drop pat.length (c :: cs)
    else c :: replaceFirstAux pat rep cs

/-- String-level wrapper for the JavaScript first-occurrence replace. -/
def jsReplaceFirst (s pat rep : String) : String :=
  String.mk (replaceFirstAux pat.toList rep.toList s.toList)

/-- JavaScript String.prototype.trim restricted to ASCII whitespace
(space, tab, CR, LF), which covers the nation names at hand. -/
def jsTrim (s : String) : String :=
  String.mk
    (((s.toList.dropWhile Char.isWhitespace).reverse.dropWhile
        Char.isWhitespace).reverse)

/-- JavaScript String.prototype.toLowerCase restricted to ASCII. -/
def jsToLower (s : String) : String :=
  String.mk (s.toList.map Char.toLower)

/-- App.toId, identical in the current class (lines 60 to 65) and the
legacy variant (lines 647 to 649):
name.replace(underscore, space).trim().toLowerCase().replace(space,
underscore), where each replace rewrites only the first occurrence. -/
def toId (name : String) : String :=
  jsReplaceFirst (jsToLower (jsTrim (jsReplaceFirst name "_" " "))) " " "_"

/-- Collapses every run of spaces to a single underscore, tracking
whether the previous character was a space. -/
def collapseSpacesAux : Bool → List Char → List Char
  | _, [] => []
  | prevSpace, c :: rest =>
    if c = ' ' then
      (if prevSpace then [] else ['_']) ++ collapseSpacesAux true rest
    else c :: collapseSpacesAux false rest

/-- The normalization claimed by the spec: trim, lowercase, collapse
every internal run of spaces to a single connector character. -/
def specToId (name : String) : String :=
  String.mk (collapseSpacesAux false (jsToLower (jsTrim name)).toList)

/-- Claim C4 counterexample: on a name with several internal spaces, toId
replaces only the first space, leaving the rest, so it differs from the
spec normalization that replaces them all. -/
theorem c4_counterexample_spaces :
    toId "a b c" = "a_b c"
    ∧ specToId "a b c" = "a_b_c"
    ∧ toId "a b c" ≠ specToId "a b c" := by
  refine ⟨rfl, rfl, ?_⟩
  decide

theorem replaceFirstAux_no_occurrence (p : Char) (rep : List Char)
    (l : List Char) (h : p ∉ l) : replaceFirstAux [p] rep l = l := by
  induction l with
  | nil => rfl
  | cons c cs ih =>
    have hpc : ¬(p == c) := by
      simp only [ne_eq, beq_iff_eq]
      exact fun hcontr => h (hcontr ▸ List.mem_cons_self p cs)
    have hcs : p ∉ cs := fun hmem => h (List.mem_cons_of_mem c hmem)
    simp [replaceFirstAux, isPrefixOfCL, hpc, ih hcs]

theorem replaceFirstAux_first_occurrence (p q : Char) (l r : List Char)
    (h : p ∉ l) :
    replaceFirstAux [p] [q] (l ++ p :: r) = l ++ q :: r := by
  induction l with
  | nil => simp [replaceFirstAux, isPrefixOfCL]
  | cons c cs ih =>
    have hpc : ¬(p == c) := by
      simp only [ne_eq, beq_iff_eq]
      exact fun hcontr => h (hcontr ▸ List.mem_cons_self p cs)
    have hcs : p ∉ cs := fun hmem => h (List.mem_cons_of_mem c hmem)
    simp [replaceFirstAux, isPrefixOfCL, hpc, ih hcs]

theorem mk_toList_eq (s : String) : String.mk s.toList = s := by
  cases s
  rfl

/-- Claim C4 (amended): for a name with no underscore that is already
trimmed and lowercase and whose character list splits as l, a space, then
r with no space in l, toId replaces exactly that first space with an
underscore and leaves the suffix r, including any further spaces,
unchanged. -/
theorem c4_first_space_only (s : String) (l r : List Char)
    (hU : '_' ∉ s.toList) (hT : jsTrim s = s) (hL : jsToLower s = s)
    (hSplit : s.toList = l ++ ' ' :: r) (hNoSp : ' ' ∉ l) :
    toId s = String.mk (l ++ '_' :: r) := by
  have h1 : jsReplaceFirst s "_" " " = s := by
    unfold jsReplaceFirst
    rw [show ("_" : String).toList = ['_'] from rfl,
        replaceFirstAux_no_occurrence '_' _ _ hU, mk_toList_eq]
  have h2 : (jsToLower (jsTrim (jsReplaceFirst s "_" " "))) = s := by
    rw [h1, hT, hL]
  unfold toId
  rw [h2]
  unfold jsReplaceFirst
  rw [show (" " : String).toList = [' '] from rfl,
      show ("_" : String).toList = ['_'] from rfl, hSplit,
      replaceFirstAux_first_occurrence ' ' '_' l r hNoSp]

/-- Witness for C4 at a concrete input: toId of the name a b c rewrites
the first internal space only. -/
theorem c4_first_space_only_witness :
    toId "a b c" = String.mk (['a'] ++ '_' :: ['b', ' ', 'c']) :=
  c4_first_space_only "a b c" ['a'] ['b', ' ', 'c'] (by decide) rfl rfl
    (by decide) (by decide)

/-- Observable results of the side-channel submission and the remote call
made for one credential of the Restore procedure: the hidden-form restore
submission (restoreRequest) and the post-submission name field read. -/
structure RestoreEnv where
  restoreSubmission : Except String Unit
  nameProbe : Except String Unit

/-- The per-credential body of restoreNations (the content of one loop
iteration after the cancellation check and the pause gate): log the
confirmation wait, block on Ui.confirm (which emits no log line), log
receipt, then submit and probe inside the try block. -/
def restoreBody (verbose : Bool) (c : Credential) (e : RestoreEnv) : List Event :=
  Event.log LogLevel.info (c.nation ++ ": Waiting for confirmation...") ::
  Event.log LogLevel.info (c.nation ++ ": Confirmation received, restoring...") ::
    match e.restoreSubmission with
    | Except.error err =>
        Event.log LogLevel.error (c.nation ++ ": Restore failed") ::
        Event.outcome c.nation Outcome.RestoreFailed ::
        (if verbose then [Event.log LogLevel.error (utilInspect err)] else [])
    | Except.ok _ =>
      match e.nameProbe with
      | Except.error err =>
          Event.log LogLevel.error (c.nation ++ ": Restore failed") ::
          Event.outcome c.nation Outcome.RestoreFailed ::
          (if verbose then [Event.log LogLevel.error (utilInspect err)] else [])
      | Except.ok _ =>
          [Event.log LogLevel.info
            (c.nation ++ ": Restore successful (or nation already existed)"),
           Event.outcome c.nation Outcome.RestoreSucceeded]

/-- The restoreNations loop from index i, with the same cancellation
check at the top of each iteration as loginNationsFrom. -/
def restoreNationsFrom (verbose : Bool) (cancelled : Nat → Bool)
    (env : Nat → RestoreEnv) : List Credential → Nat → List Event
  | [], _ => []
  | c :: cs, i =>
    if cancelled i then []
    else restoreBody verbose c (env i) ++ restoreNationsFrom verbose cancelled env cs (i + 1)

/-- The Restore procedure (App.restoreNations) on a credential list. -/
def restoreNations (verbose : Bool) (cancelled : Nat → Bool)
    (env : Nat → RestoreEnv) (credentials : List Credential) : List Event :=
  restoreNationsFrom verbose cancelled env credentials 0

/-- Claim C5: for every credential that reaches the submission step of
the Restore procedure, the outcome is RestoreSucceeded iff neither the
submission nor the post-submission name probe throws; if either throws,
the outcome is RestoreFailed.  No pre-submission existence information
enters the classification at all. -/
theorem c5_restore_success_iff_probe (verbose : Bool) (c : Credential)
    (e : RestoreEnv) :
    (outcomesOf (restoreBody verbose c e) = [(c.nation, Outcome.RestoreSucceeded)]
      ↔ e.restoreSubmission = Except.ok () ∧ e.nameProbe = Except.ok ())
    ∧ (∀ err, e.restoreSubmission = Except.error err →
        outcomesOf (restoreBody verbose c e) = [(c.nation, Outcome.RestoreFailed)])
    ∧ (∀ err, e.nameProbe = Except.error err →
        outcomesOf (restoreBody verbose c e) = [(c.nation, Outcome.RestoreFailed)]) := by
  rcases e with ⟨sub, probe⟩
  rcases sub with serr | su
  · refine ⟨?_, ?_, ?_⟩
    · simp [restoreBody]
    · intro err _
      simp [restoreBody]
    · intro err _
      simp [restoreBody]
  · cases su
    rcases probe with perr | pu
    · refine ⟨?_, ?_, ?_⟩
      · simp [restoreBody]
      · intro err h
        exact absurd h (by simp)
      · intro err _
        simp [restoreBody]
    · cases pu
      refine ⟨?_, ?_, ?_⟩
      · simp [restoreBody]
      · intro err h
        exact absurd h (by simp)
      · intro err h
        exact absurd h (by simp)

/-- Witness for C5 at a concrete input: a succeeding submission and a
succeeding probe are classified RestoreSucceeded. -/
theorem c5_restore_success_iff_probe_witness :
    outcomesOf (restoreBody false ⟨"ghostnation", "pw1"⟩
        ⟨Except.ok (), Except.ok ()⟩)
      = [("ghostnation", Outcome.RestoreSucceeded)] :=
  (c5_restore_success_iff_probe false ⟨"ghostnation", "pw1"⟩
      ⟨Except.ok (), Except.ok ()⟩).1.mpr ⟨rfl, rfl⟩

/-- Observable results for one credential of the Auto procedure: the name
field existence probe, and the environments consumed by the delegated
singleton Login or Restore run. -/
structure AutoEnv where
  nameProbe : Except String Unit
  login : LoginEnv
  restore : RestoreEnv

/-- The auto loop from index i.  Each iteration checks the cancelled flag
(check index 2 * i), awaits the pause gate, logs the Nation exists line
before awaiting the probe, logs Nation does not exist from the catch
block when the probe throws, and then delegates the singleton credential
list to loginNations or restoreNations; the delegated loop performs its
own cancellation check, which observes the flag value at check index
2 * i + 1. -/
def autoFrom (verbose : Bool) (cancelled : Nat → Bool)
    (env : Nat → AutoEnv) : List Credential → Nat → List Event
  | [], _ => []
  | c :: cs, i =>
    if cancelled (2 * i) then []
    else
      (Event.log LogLevel.info (c.nation ++ ": Nation exists") ::
        match (env i).nameProbe with
        | Except.ok _ => []
        | Except.error _ =>
            [Event.log LogLevel.info (c.nation ++ ": Nation does not exist")])
      ++ (match (env i).nameProbe with
          | Except.ok _ =>
              loginNations verbose (fun _ => cancelled (2 * i + 1))
                (fun _ => (env i).login) [c]
          | Except.error _ =>
              restoreNations verbose (fun _ => cancelled (2 * i + 1))
                (fun _ => (env i).restore) [c])
      ++ autoFrom verbose cancelled env cs (i + 1)

/-- The Auto procedure (App.auto) on a credential list. -/
def auto (verbose : Bool) (cancelled : Nat → Bool)
    (env : Nat → AutoEnv) (credentials : List Credential) : List Event :=
  autoFrom verbose cancelled env credentials 0

/-- Claim C6: an Auto iteration whose existence probe succeeds continues,
after its probe log line, exactly as the Login procedure run on the
singleton list of that credential; when the probe throws it continues,
after its two probe log lines, exactly as the Restore procedure on that
singleton list. -/
theorem c6_auto_dispatch (verbose : Bool) (cancelled : Nat → Bool)
    (env : Nat → AutoEnv) (c : Credential) (cs : List Credential) (i : Nat)
    (hc : cancelled (2 * i) = false) :
    ((env i).nameProbe = Except.ok () →
      autoFrom verbose cancelled env (c :: cs) i
        = Event.log LogLevel.info (c.nation ++ ": Nation exists") ::
            loginNations verbose (fun _ => cancelled (2 * i + 1))
              (fun _ => (env i).login) [c]
          ++ autoFrom verbose cancelled env cs (i + 1))
    ∧ (∀ err, (env i).nameProbe = Except.error err →
        autoFrom verbose cancelled env (c :: cs) i
          = Event.log LogLevel.info (c.nation ++ ": Nation exists") ::
            Event.log LogLevel.info (c.nation ++ ": Nation does not exist") ::
              restoreNations verbose (fun _ => cancelled (2 * i + 1))
                (fun _ => (env i).restore) [c]
            ++ autoFrom verbose cancelled env cs (i + 1)) := by
  constructor
  · intro hp
    simp [autoFrom, hc, hp]
  · intro err hp
    simp [autoFrom, hc, hp]

/-- Witness for C6 at a concrete input: with the probe succeeding and no
cancellation, the Auto run on a single credential is the probe log line
followed by the singleton Login run. -/
theorem c6_auto_dispatch_witness :
    autoFrom false (fun _ => false)
        (fun _ => ⟨Except.ok (), ⟨Except.ok (), Except.ok "70", (100 : ℚ)⟩,
          ⟨Except.ok (), Except.ok ()⟩⟩)
        [⟨"testnation", "pw1"⟩] 0
      = Event.log LogLevel.info "testnation: Nation exists" ::
          loginNations false (fun _ => false)
            (fun _ => ⟨Except.ok (), Except.ok "70", (100 : ℚ)⟩)
            [⟨"testnation", "pw1"⟩]
        ++ autoFrom false (fun _ => false)
            (fun _ => ⟨Except.ok (), ⟨Except.ok (), Except.ok "70", (100 : ℚ)⟩,
              ⟨Except.ok (), Except.ok ()⟩⟩) [] 1 :=
  (c6_auto_dispatch false (fun _ => false)
      (fun _ => ⟨Except.ok (), ⟨Except.ok (), Except.ok "70", (100 : ℚ)⟩,
        ⟨Except.ok (), Except.ok ()⟩⟩)
      ⟨"testnation", "pw1"⟩ [] 0 rfl).1 rfl

/-- Claim C10: the Nation exists line is logged before the probe is
awaited, so a credential whose probe throws contributes both the Nation
exists and the Nation does not exist lines, in that order, at the head of
its event segment. -/
theorem c10_auto_logs_order (verbose : Bool) (cancelled : Nat → Bool)
    (env : Nat → AutoEnv) (c : Credential) (cs : List Credential) (i : Nat)
    (err : String)
    (hc : cancelled (2 * i) = false)
    (hp : (env i).nameProbe = Except.error err) :
    autoFrom verbose cancelled env (c :: cs) i
      = Event.log LogLevel.info (c.nation ++ ": Nation exists") ::
        Event.log LogLevel.info (c.nation ++ ": Nation does not exist") ::
          restoreNations verbose (fun _ => cancelled (2 * i + 1))
            (fun _ => (env i).restore) [c]
        ++ autoFrom verbose cancelled env cs (i + 1) := by
  simp [autoFrom, hc, hp]

/-- Witness for C10 at a concrete input: a throwing probe yields both
informational probe lines, in order. -/
theorem c10_auto_logs_order_witness :
    autoFrom false (fun _ => false)
        (fun _ => ⟨Except.error "not found",
          ⟨Except.ok (), Except.ok "70", (100 : ℚ)⟩,
          ⟨Except.ok (), Except.ok ()⟩⟩)
        [⟨"ghostnation", "pw1"⟩] 0
      = Event.log LogLevel.info "ghostnation: Nation exists" ::
        Event.log LogLevel.info "ghostnation: Nation does not exist" ::
          restoreNations false (fun _ => false)
            (fun _ => ⟨Except.ok (), Except.ok ()⟩) [⟨"ghostnation", "pw1"⟩]
        ++ autoFrom false (fun _ => false)
            (fun _ => ⟨Except.error "not found",
              ⟨Except.ok (), Except.ok "70", (100 : ℚ)⟩,
              ⟨Except.ok (), Except.ok ()⟩⟩) [] 1 :=
  c10_auto_logs_order false (fun _ => false)
    (fun _ => ⟨Except.error "not found",
      ⟨Except.ok (), Except.ok "70", (100 : ℚ)⟩,
      ⟨Except.ok (), Except.ok ()⟩⟩)
    ⟨"ghostnation", "pw1"⟩ [] 0 "not found" rfl rfl

/-- The orchestrator run state: the _cancel and _pause fields of App. -/
structure RunState where
  cancel : Bool
  pause : Bool
  deriving DecidableEq

/-- The externally invokable state transitions during a run: cancel()
sets _cancel and clears _pause, pause() sets _pause, unpause() clears
_pause.  reset() runs only at the start of the next start() call, so it
is not a during-run action. -/
inductive UiAction
  | cancelAct
  | pauseAct
  | unpauseAct
  deriving DecidableEq

/-- Effect of one UI action on the run state. -/
def applyAction : RunState → UiAction → RunState
  | _, UiAction.cancelAct => ⟨true, false⟩
  | s, UiAction.pauseAct => ⟨s.cancel, true⟩
  | s, UiAction.unpauseAct => ⟨s.cancel, false⟩

/-- Effect of a sequence of UI actions on the run state. -/
def applyActions (s : RunState) (acts : List UiAction) : RunState :=
  acts.foldl applyAction s

/-- Claim C2: the cancelled flag, once set, survives every further UI
action of the run, and each of the three per-credential loops, upon
observing the flag at the top of an iteration, produces no further event
at all: no outcome and no log line for the remaining credentials. -/
theorem c2_cancellation_monotone :
    (∀ (s : RunState) (acts : List UiAction), s.cancel = true →
      (applyActions s acts).cancel = true)
    ∧ (∀ (verbose : Bool) (cancelled : Nat → Bool) (env : Nat → LoginEnv)
        (cs : List Credential) (i : Nat), cancelled i = true →
        loginNationsFrom verbose cancelled env cs i = [])
    ∧ (∀ (verbose : Bool) (cancelled : Nat → Bool) (env : Nat → RestoreEnv)
        (cs : List Credential) (i : Nat), cancelled i = true →
        restoreNationsFrom verbose cancelled env cs i = [])
    ∧ (∀ (verbose : Bool) (cancelled : Nat → Bool) (env : Nat → AutoEnv)
        (cs : List Credential) (i : Nat), cancelled (2 * i) = true →
        autoFrom verbose cancelled env cs i = []) := by
  refine ⟨?_, ?_, ?_, ?_⟩
  · intro s acts hs
    induction acts generalizing s with
    | nil => exact hs
    | cons a rest ih =>
      cases a
      · exact ih ⟨true, false⟩ rfl
      · exact ih ⟨s.cancel, true⟩ hs
      · exact ih ⟨s.cancel, false⟩ hs
  · intro verbose cancelled env cs i hi
    cases cs
    · rfl
    · simp [loginNationsFrom, hi]
  · intro verbose cancelled env cs i hi
    cases cs
    · rfl
    · simp [restoreNationsFrom, hi]
  · intro verbose cancelled env cs i hi
    cases cs
    · rfl
    · simp [autoFrom, hi]

/-- Witness for C2 at concrete inputs: after cancel then pause and
unpause the flag is still set, and a Login loop whose flag is set at the
top of its iteration emits nothing. -/
theorem c2_cancellation_monotone_witness :
    (applyActions ⟨false, false⟩
        [UiAction.cancelAct, UiAction.pauseAct, UiAction.unpauseAct]).cancel = true
    ∧ loginNationsFrom false (fun _ => true)
        (fun _ => ⟨Except.ok (), Except.ok "70", (100 : ℚ)⟩)
        [⟨"testnation", "pw1"⟩, ⟨"othernation", "pw2"⟩] 0 = [] :=
  ⟨c2_cancellation_monotone.1 ⟨true, false⟩
      [UiAction.pauseAct, UiAction.unpauseAct] rfl,
    c2_cancellation_monotone.2.1 false (fun _ => true)
      (fun _ => ⟨Except.ok (), Except.ok "70", (100 : ℚ)⟩)
      [⟨"testnation", "pw1"⟩, ⟨"othernation", "pw2"⟩] 0 rfl⟩

/-- Result of one App.start invocation: the event trace (mode log line,
procedure events, the cleanup of the try-finally, and the terminal log
line when no exception propagates), the exception propagated to the
caller if any, the composed user agent string stored in _userAgent for
the side-channel submissions, and the argument actually passed to the
NsApi constructor. -/
structure RunOutcome where
  events : List Event
  err : Option String
  composedUserAgent : String
  apiUserAgentArg : String

/-- App.start.  A TypeScript enum member is a number at runtime
(Mode.Login = 0, Mode.Restore = 1, Mode.Auto = 2), so the mode is a Nat
and any other value reaches the throw of the final else branch.  The
dispatched procedure is abstracted by the events it emitted and the
exception it let escape, if any: procErr models a non-per-credential
exception escaping the procedure (per-credential errors are swallowed
inside the loops).  The finally clause runs NsApi.cleanup on every exit
path; the terminal cancelled or complete line is logged only when
nothing propagated. -/
def startRun (userAgent : String) (mode : Nat) (procEvents : List Event)
    (procErr : Option String) (cancelledAtEnd : Bool) : RunOutcome :=
  let composed :=
    "nslogin-web (maintained by Auralia, currently used by \"" ++ userAgent ++ "\")"
  let body : List Event × Option String :=
    if mode = 2 then (Event.log LogLevel.info "Auto mode" :: procEvents, procErr)
    else if mode = 0 then (Event.log LogLevel.info "Login mode" :: procEvents, procErr)
    else if mode = 1 then (Event.log LogLevel.info "Restore mode" :: procEvents, procErr)
    else ([], some "Unrecognized mode")
  let afterFinally := body.1 ++ [Event.cleanup]
  match body.2 with
  | some e => ⟨afterFinally, some e, composed, userAgent⟩
  | none =>
      ⟨afterFinally ++
        [Event.log LogLevel.info
          (if cancelledAtEnd then "Process cancelled." else "Process complete.")],
        none, composed, userAgent⟩

/-- Number of NsApi.cleanup invocations recorded in an event list. -/
def countCleanup : List Event → Nat
  | [] => 0
  | Event.cleanup :: rest => countCleanup rest + 1
  | Event.log _ _ :: rest => countCleanup rest
  | Event.outcome _ _ :: rest => countCleanup rest

@[simp] theorem countCleanup_nil : countCleanup [] = 0 := rfl

@[simp] theorem countCleanup_cons_log (lv : LogLevel) (m : String)
    (rest : List Event) :
    countCleanup (Event.log lv m :: rest) = countCleanup rest := rfl

@[simp] theorem countCleanup_cons_outcome (n : String) (o : Outcome)
    (rest : List Event) :
    countCleanup (Event.outcome n o :: rest) = countCleanup rest := rfl

@[simp] theorem countCleanup_cons_cleanup (rest : List Event) :
    countCleanup (Event.cleanup :: rest) = countCleanup rest + 1 := rfl

@[simp] theorem countCleanup_append (a b : List Event) :
    countCleanup (a ++ b) = countCleanup a + countCleanup b := by
  induction a with
  | nil => simp
  | cons x rest ih =>
    cases x <;> simp [countCleanup, ih]
    omega

@[simp] theorem countCleanup_ite_log (v : Bool) (lv : LogLevel) (m : String) :
    countCleanup (if v then [Event.log lv m] else []) = 0 := by
  cases v <;> rfl

theorem countCleanup_loginBody (verbose : Bool) (c : Credential)
    (e : LoginEnv) : countCleanup (loginBody verbose c e) = 0 := by
  rcases e with ⟨a, l, now⟩
  rcases a with aerr | au
  · simp [loginBody]
  · rcases l with lerr | lv
    · simp [loginBody]
    · by_cases hf : loginFreshnessFails now lv <;> simp [loginBody, hf]

theorem countCleanup_restoreBody (verbose : Bool) (c : Credential)
    (e : RestoreEnv) : countCleanup (restoreBody verbose c e) = 0 := by
  rcases e with ⟨sub, probe⟩
  rcases sub with serr | su
  · simp [restoreBody]
  · rcases probe with perr | pu <;> simp [restoreBody]

theorem countCleanup_loginNationsFrom (verbose : Bool)
    (cancelled : Nat → Bool) (env : Nat → LoginEnv)
    (cs : List Credential) (i : Nat) :
    countCleanup (loginNationsFrom verbose cancelled env cs i) = 0 := by
  induction cs generalizing i with
  | nil => rfl
  | cons c rest ih =>
    by_cases hc : cancelled i <;>
      simp [loginNationsFrom, hc, countCleanup_loginBody, ih]

theorem countCleanup_restoreNationsFrom (verbose : Bool)
    (cancelled : Nat → Bool) (env : Nat → RestoreEnv)
    (cs : List Credential) (i : Nat) :
    countCleanup (restoreNationsFrom verbose cancelled env cs i) = 0 := by
  induction cs generalizing i with
  | nil => rfl
  | cons c rest ih =>
    by_cases hc : cancelled i <;>
      simp [restoreNationsFrom, hc, countCleanup_restoreBody, ih]

theorem countCleanup_autoFrom (verbose : Bool)
    (cancelled : Nat → Bool) (env : Nat → AutoEnv)
    (cs : List Credential) (i : Nat) :
    countCleanup (autoFrom verbose cancelled env cs i) = 0 := by
  induction cs generalizing i with
  | nil => rfl
  | cons c rest ih =>
    by_cases hc : cancelled (2 * i)
    · simp [autoFrom, hc]
    · rcases hp : (env i).nameProbe with perr | pu <;>
        simp [autoFrom, hc, hp, loginNations, restoreNations,
          countCleanup_loginNationsFrom, countCleanup_restoreNationsFrom, ih]

/-- Claim C7: none of the three procedures ever invokes cleanup, and for
every invocation of start, on every exit path (normal completion,
cancellation, a procedure exception, or the unrecognized-mode error) the
event trace records exactly one NsApi.cleanup invocation, placed by the
finally clause before start returns or propagates. -/
theorem c7_cleanup_exactly_once (userAgent : String) (mode : Nat)
    (procEvents : List Event) (procErr : Option String)
    (cancelledAtEnd : Bool)
    (hproc : countCleanup procEvents = 0) :
    countCleanup (startRun userAgent mode procEvents procErr cancelledAtEnd).events = 1
    ∧ (∀ (verbose : Bool) (cancelled : Nat → Bool) (env : Nat → LoginEnv)
        (cs : List Credential),
        countCleanup (loginNations verbose cancelled env cs) = 0)
    ∧ (∀ (verbose : Bool) (cancelled : Nat → Bool) (env : Nat → RestoreEnv)
        (cs : List Credential),
        countCleanup (restoreNations verbose cancelled env cs) = 0)
    ∧ (∀ (verbose : Bool) (cancelled : Nat → Bool) (env : Nat → AutoEnv)
        (cs : List Credential),
        countCleanup (auto verbose cancelled env cs) = 0) := by
  refine ⟨?_, ?_, ?_, ?_⟩
  · unfold startRun
    rcases procErr with _ | e <;>
      by_cases h2 : mode = 2 <;> by_cases h0 : mode = 0 <;>
        by_cases h1 : mode = 1 <;> simp [h2, h0, h1, hproc]
  · intro verbose cancelled env cs
    exact countCleanup_loginNationsFrom verbose cancelled env cs 0
  · intro verbose cancelled env cs
    exact countCleanup_restoreNationsFrom verbose cancelled env cs 0
  · intro verbose cancelled env cs
    exact countCleanup_autoFrom verbose cancelled env cs 0

/-- Witness for C7 at a concrete input: the unrecognized-mode path still
records exactly one cleanup. -/
theorem c7_cleanup_exactly_once_witness :
    countCleanup (startRun "testuser" 7 [] none false).events = 1 :=
  (c7_cleanup_exactly_once "testuser" 7 [] none false rfl).1

/-- Claim C9 counterexample: start passes the raw operator tag, not the
composed identity string, to the NsApi constructor; the composed string
is stored for the side-channel submissions only. -/
theorem c9_counterexample_useragent :
    (startRun "testuser" 0 [] none false).apiUserAgentArg = "testuser"
    ∧ (startRun "testuser" 0 [] none false).composedUserAgent
        = "nslogin-web (maintained by Auralia, currently used by \"testuser\")"
    ∧ (startRun "testuser" 0 [] none false).apiUserAgentArg
        ≠ (startRun "testuser" 0 [] none false).composedUserAgent := by
  refine ⟨rfl, rfl, ?_⟩
  decide

/-- Claim C9 (amended): every invocation of start with operator tag t
composes and stores the identity string nslogin-web (maintained by
Auralia, currently used by quoted t), with t embedded, for the
side-channel submissions, while the RemoteAccountClient itself is
constructed with the raw tag t. -/
theorem c9_useragent_composition (t : String) (mode : Nat)
    (procEvents : List Event) (procErr : Option String)
    (cancelledAtEnd : Bool) :
    (startRun t mode procEvents procErr cancelledAtEnd).composedUserAgent
      = "nslogin-web (maintained by Auralia, currently used by \"" ++ t ++ "\")"
    ∧ (startRun t mode procEvents procErr cancelledAtEnd).apiUserAgentArg = t := by
  unfold startRun
  rcases procErr with _ | e <;>
    by_cases h2 : mode = 2 <;> by_cases h0 : mode = 0 <;>
      by_cases h1 : mode = 1 <;> simp [h2, h0, h1]

/-- A promise settles either fulfilled or rejected. -/
inductive PromiseResult
  | fulfilled
  | rejected
  deriving DecidableEq

/-- Whether the resolved flag of a hidden-form submission promise is
already true when the 15 second hard ceiling fires: the iframe load
handler schedules the resolving callback 6 seconds after the load event,
at loadTime + 6 (none when the load event never fires); at an exact tie
the ceiling callback, registered first, runs first and still sees the
flag unset. -/
def resolvedAtCeiling (loadTime : Option ℚ) : Bool :=
  match loadTime with
  | none => false
  | some t => decide (t + 6 < 15)

/-- App.restoreRequest: the 6 second post-load callback sets the resolved
flag and resolves; the 15 second ceiling rejects when the flag is still
unset. -/
def restoreRequestResult (loadTime : Option ℚ) : PromiseResult :=
  if resolvedAtCeiling loadTime then PromiseResult.fulfilled
  else PromiseResult.rejected

/-- App.loginRequest (legacy variant): the same structure, except that
the 15 second ceiling calls resolve, not reject, when the flag is still
unset, so the promise is fulfilled on both branches. -/
def loginRequestResult (loadTime : Option ℚ) : PromiseResult :=
  if resolvedAtCeiling loadTime then PromiseResult.fulfilled
  else PromiseResult.fulfilled

/-- Claim C8: a side-channel submission not yet resolved when the 15
second hard ceiling fires rejects in the Restore variant and resolves in
the Login variant. -/
theorem c8_timeout_asymmetry (loadTime : Option ℚ)
    (h : resolvedAtCeiling loadTime = false) :
    restoreRequestResult loadTime = PromiseResult.rejected
    ∧ loginRequestResult loadTime = PromiseResult.fulfilled := by
  constructor
  · simp [restoreRequestResult, h]
  · simp [loginRequestResult, h]

/-- Witness for C8 at a concrete input: a load event that never fires
leaves the flag unset at the ceiling; Restore rejects, Login resolves. -/
theorem c8_timeout_asymmetry_witness :
    restoreRequestResult none = PromiseResult.rejected
    ∧ loginRequestResult none = PromiseResult.fulfilled :=
  c8_timeout_asymmetry none rfl
